import Mathlib

/-!
# Verification of the Agri-Logic disaster-simulation engine

A shallow embedding, in Lean 4, of the `predict_toxicity` simulation services of
the Agri-Logic repository: the hydrological (flood) model, the Gaussian-plume
atmospheric dispersion model, the seismic model, the orchestration service and
the task-finalization layer of the API route.

Conventions of the embedding:
* Python floats are modelled as real numbers (`ℝ`); `round(x, n)` is modelled as
  rounding `x * 10^n` to the nearest integer, and `int(x)` as truncation toward
  zero.
* Python dictionaries holding heterogeneous result records are modelled as Lean
  structures; a GeoJSON polygon is modelled as its list of `[lon, lat]` pairs.
* The external data providers (facility registry, ERA5 weather, terrain rasters)
  are collaborators outside the simulation engine; the orchestrator is modelled
  as a function of the already-resolved context (facility, weather, elevation,
  slope), exactly as the code uses them after its lookup-with-fallback steps.
-/

open Real List

/-- Model of Python `round(x, 2)`: round to the nearest hundredth. -/
noncomputable def round2 (x : ℝ) : ℝ := (round (x * 100) : ℤ) / 100

/-- Model of Python `round(x, 4)`: round to the nearest ten-thousandth. -/
noncomputable def round4 (x : ℝ) : ℝ := (round (x * 10000) : ℤ) / 10000

/-- Model of Python `int(x)`: truncation toward zero. -/
noncomputable def pyInt (x : ℝ) : ℤ := if x < 0 then -⌊-x⌋ else ⌊x⌋

/-- Model of Python `str.lower()`: characterwise lowercasing (the calamity-type
strings compared against it are ASCII). -/
def pyLower (s : String) : String := ⟨s.data.map Char.toLower⟩

namespace Settings

/-- `Settings.MAX_SIMULATION_RADIUS_KM` from `config/settings.py`. -/
def MAX_SIMULATION_RADIUS_KM : ℝ := 50.0

end Settings

namespace HydrologicalService

/-- One flow path produced by `_generate_flow_path`. -/
structure FlowPath where
  direction : ℕ
  coordinates : List (ℝ × ℝ)
  length_km : ℝ
  pollutant_retention : ℝ

/-- The `affected_metrics` record built by `_calculate_impact_metrics`. -/
structure ImpactMetrics where
  est_population : ℤ
  affected_area_km2 : ℝ
  agri_land_acres : ℝ
  primary_toxins : List String
  health_risks : List String
  avg_toxicity_ppm : ℝ

/-- The result record of `HydrologicalService.simulate_flood`. -/
structure FloodResult where
  magnitude_m : ℝ
  critical_radius_km : ℝ
  affected_metrics : ImpactMetrics
  fallout_geometry : List (ℝ × ℝ)
  toxicity_concentration_ppm : List (ℝ × ℝ)
  flow_paths : List FlowPath
  status : String

/-- `HydrologicalService._calculate_flood_radius`: base radius 2 km scaled by
`1 + magnitude * 0.5`, capped at the configured maximum simulation radius. -/
noncomputable def calculate_flood_radius (magnitude : ℝ) : ℝ :=
  min (2.0 * (1 + magnitude * 0.5)) Settings.MAX_SIMULATION_RADIUS_KM

/-- Direction vectors of `_generate_flow_path` (`direction_map`). -/
noncomputable def direction_map (direction : ℕ) : ℝ × ℝ :=
  if direction = 1 then (0, 1)
  else if direction = 2 then (0.707, 0.707)
  else if direction = 3 then (1, 0)
  else if direction = 4 then (0.707, -0.707)
  else if direction = 5 then (0, -1)
  else if direction = 6 then (-0.707, -0.707)
  else if direction = 7 then (-1, 0)
  else if direction = 8 then (-0.707, 0.707)
  else (0, 1)

/-- `HydrologicalService._generate_flow_path`: 20 interpolated points in the
given compass direction, with a retention factor `1 - 0.1 * (direction % 3)`. -/
noncomputable def generate_flow_path (start_lat start_lon : ℝ) (direction : ℕ)
    (max_distance_km : ℝ) : FlowPath :=
  let km_per_degree : ℝ := 111.0
  let dxy := direction_map direction
  let coords := (List.range 20).map fun (i : ℕ) =>
    let distance := ((i : ℝ) / 20) * max_distance_km
    (start_lon + dxy.2 * distance / km_per_degree,
     start_lat + dxy.1 * distance / km_per_degree)
  { direction := direction
    coordinates := coords
    length_km := max_distance_km
    pollutant_retention := 1.0 - 0.1 * ((direction % 3 : ℕ) : ℝ) }

/-- `HydrologicalService._trace_flow_paths`: one path per compass octant. -/
noncomputable def trace_flow_paths (start_lat start_lon max_distance_km : ℝ) :
    List FlowPath :=
  (List.range 8).map fun i =>
    generate_flow_path start_lat start_lon (i + 1) max_distance_km

/-- `HydrologicalService._model_pollutant_transport`: exponential decay with
distance times a dilution factor from the flood volume, at the fixed sample
distances; modelled as the list of (distance, concentration) pairs of the
`toxicity_map` dictionary. -/
noncomputable def model_pollutant_transport (initial_concentration flood_magnitude : ℝ) :
    List (ℝ × ℝ) :=
  [0.5, 1.0, 2.0, 5.0, 10.0].map fun dist_km =>
    let decay_factor := Real.exp (-0.3 * dist_km)
    let dilution := 1.0 / (1.0 + flood_magnitude * 0.5)
    (dist_km, round2 (initial_concentration * decay_factor * dilution))

/-- `HydrologicalService._calculate_impact_metrics`: circle area from the
radius, population at 500 per km², 40% agricultural share, and threshold-gated
health-risk list from the mean sampled concentration. -/
noncomputable def calculate_impact_metrics (toxicity_map : List (ℝ × ℝ))
    (radius_km : ℝ) : ImpactMetrics :=
  let affected_area_km2 := Real.pi * radius_km ^ 2
  let population_density : ℝ := 500
  let est_population := pyInt (affected_area_km2 * population_density)
  let agri_land_km2 := affected_area_km2 * 0.4
  let agri_land_acres := agri_land_km2 * 247.105
  let vals := toxicity_map.map Prod.snd
  let avg_concentration := vals.sum / (vals.length : ℝ)
  let health_risks :=
    (if 50 < avg_concentration then
      ["Severe contamination risk", "Groundwater contamination"] else []) ++
    (if 20 < avg_concentration then
      ["Neurological issues", "Soil contamination"] else []) ++
    (if 10 < avg_concentration then ["Respiratory stress"] else [])
  let health_risks :=
    if health_risks = [] then ["Low contamination risk"] else health_risks
  { est_population := est_population
    affected_area_km2 := round2 affected_area_km2
    agri_land_acres := (round (agri_land_acres * 10) : ℤ) / 10
    primary_toxins := ["Heavy metals", "Industrial effluents"]
    health_risks := health_risks
    avg_toxicity_ppm := round2 avg_concentration }

end HydrologicalService

/-- The 32-edge (33-vertex) circular polygon used by
`HydrologicalService._generate_fallout_polygon` and, with identical text, by the
inline polygon loop of `SimulationService._simulate_earthquake` and of the
risk-profile route: vertex `i` sits at angle `(i/32) * 2π` on a circle of the
given radius converted at 111 km per degree, as a `[lon, lat]` pair. -/
noncomputable def fallout_polygon_coords (center_lat center_lon radius_km : ℝ) :
    List (ℝ × ℝ) :=
  let num_points : ℕ := 32
  let km_per_degree : ℝ := 111.0
  (List.range (num_points + 1)).map fun (i : ℕ) =>
    let angle := ((i : ℝ) / (num_points : ℝ)) * (2 * Real.pi)
    (center_lon + (radius_km / km_per_degree) * Real.cos angle,
     center_lat + (radius_km / km_per_degree) * Real.sin angle)

namespace HydrologicalService

/-- `HydrologicalService._generate_fallout_polygon` (the flow-path argument is
unused by the code, which returns the circular approximation). -/
noncomputable def generate_fallout_polygon (center_lat center_lon : ℝ)
    (_flow_paths : List FlowPath) (radius_km : ℝ) : List (ℝ × ℝ) :=
  fallout_polygon_coords center_lat center_lon radius_km

/-- `HydrologicalService.simulate_flood`: radius from magnitude, flow paths,
pollutant transport, impact metrics and fallout polygon. -/
noncomputable def simulate_flood (magnitude facility_lat facility_lon
    pollutant_concentration : ℝ) : FloodResult :=
  let affected_radius_km := calculate_flood_radius magnitude
  let flow_paths := trace_flow_paths facility_lat facility_lon affected_radius_km
  let toxicity_map := model_pollutant_transport pollutant_concentration magnitude
  let impact_metrics := calculate_impact_metrics toxicity_map affected_radius_km
  let fallout_geometry :=
    generate_fallout_polygon facility_lat facility_lon flow_paths affected_radius_km
  { magnitude_m := magnitude
    critical_radius_km := affected_radius_km
    affected_metrics := impact_metrics
    fallout_geometry := fallout_geometry
    toxicity_concentration_ppm := toxicity_map
    flow_paths := flow_paths
    status := "completed" }

end HydrologicalService

namespace DispersionService

/-- Pasquill-Gifford coefficient pair from the `stability_classes` table. -/
structure StabilityParams where
  sigma_y : ℝ
  sigma_z : ℝ

/-- The `stability_classes` dictionary of `DispersionService.__init__`;
`dict.get(key, default)` with default `D` is folded in, as in
`_gaussian_plume_concentration`. -/
noncomputable def stability_classes (stability_class : String) : StabilityParams :=
  if stability_class = "A" then ⟨0.22, 0.20⟩
  else if stability_class = "B" then ⟨0.16, 0.12⟩
  else if stability_class = "C" then ⟨0.11, 0.08⟩
  else if stability_class = "D" then ⟨0.08, 0.06⟩
  else if stability_class = "E" then ⟨0.06, 0.03⟩
  else if stability_class = "F" then ⟨0.04, 0.016⟩
  else ⟨0.08, 0.06⟩

/-- `DispersionService._gaussian_plume_concentration`: at non-positive downwind
distance, the point-source sentinel (rate spread over a 10 m-radius sphere);
otherwise the ground-reflected Gaussian plume with power-law spread
coefficients floored at 1.0 m, wind floored at 0.5 m/s, clamped at 0. -/
noncomputable def gaussian_plume_concentration (emission_rate distance_m
    wind_speed : ℝ) (stability_class : String)
    (release_height receptor_height : ℝ) : ℝ :=
  if distance_m ≤ 0 then
    emission_rate * 1000000 / (4 / 3 * Real.pi * 10 ^ 3)
  else
    let params := stability_classes stability_class
    let sigma_y :=
      if distance_m < 1000 then params.sigma_y * distance_m ^ (0.894 : ℝ)
      else params.sigma_y * (1000 : ℝ) ^ (0.894 : ℝ) * (distance_m / 1000) ^ (0.5 : ℝ)
    let sigma_z :=
      if distance_m < 1000 then params.sigma_z * distance_m ^ (0.894 : ℝ)
      else params.sigma_z * (1000 : ℝ) ^ (0.894 : ℝ) * (distance_m / 1000) ^ (0.5 : ℝ)
    let sigma_y := max sigma_y 1.0
    let sigma_z := max sigma_z 1.0
    let Q := emission_rate * 1000000
    let u := max wind_speed 0.5
    let H := release_height
    let z := receptor_height
    let vertical_term :=
      Real.exp (-0.5 * ((z - H) / sigma_z) ^ 2) +
      Real.exp (-0.5 * ((z + H) / sigma_z) ^ 2)
    max 0 (Q / (2 * Real.pi * u * sigma_y * sigma_z) * vertical_term)

/-- `DispersionService._calculate_blast_radius`: cube-root TNT scaling with
K = 18 m per kg^(1/3), floored at 0.1 km. -/
noncomputable def calculate_blast_radius (tnt_equivalent_kg : ℝ) : ℝ :=
  let K : ℝ := 18
  let radius_m := K * tnt_equivalent_kg ^ ((1 : ℝ) / 3)
  let radius_km := radius_m / 1000
  max 0.1 radius_km

/-- The candidate distances of `np.logspace(2, log10(max_search_km * 1000), 100)`
used by `_calculate_max_distance`: 100 log-spaced points from 100 m. -/
noncomputable def logspace_distances (max_search_km : ℝ) : List ℝ :=
  (List.range 100).map fun (k : ℕ) =>
    (10 : ℝ) ^ ((2 : ℝ) +
      (k : ℝ) * (Real.logb 10 (max_search_km * 1000) - 2) / 99)

/-- The scan loop of `_calculate_max_distance`: walk the candidate distances,
remembering the last distance whose concentration meets the threshold; stop at
the first shortfall once a valid distance is held; on exhaustion return at
least half the search ceiling. -/
noncomputable def max_distance_scan (emission_rate wind_speed : ℝ)
    (stability_class : String) (release_height threshold_mg_m3 max_search_km : ℝ) :
    List ℝ → ℝ → ℝ
  | [], last_valid_distance => max last_valid_distance (max_search_km * 0.5)
  | dist :: rest, last_valid_distance =>
    let conc := gaussian_plume_concentration emission_rate dist wind_speed
      stability_class release_height 0
    if threshold_mg_m3 ≤ conc then
      max_distance_scan emission_rate wind_speed stability_class release_height
        threshold_mg_m3 max_search_km rest (dist / 1000)
    else if 0 < last_valid_distance then last_valid_distance
    else
      max_distance_scan emission_rate wind_speed stability_class release_height
        threshold_mg_m3 max_search_km rest last_valid_distance

/-- `DispersionService._calculate_max_distance`: emission-tiered search ceiling
and threshold, low-wind ceiling extension, then the logarithmic scan starting
from the floor value 0.5 km. -/
noncomputable def calculate_max_distance (emission_rate wind_speed : ℝ)
    (stability_class : String) (release_height threshold_mg_m3 : ℝ) : ℝ :=
  let tier : ℝ × ℝ :=
    if 100 < emission_rate then (50, max threshold_mg_m3 10.0)
    else if 50 < emission_rate then (40, max threshold_mg_m3 5.0)
    else if 10 < emission_rate then (30, max threshold_mg_m3 2.0)
    else (20, threshold_mg_m3)
  let max_search_km := if wind_speed < 2.0 then tier.1 * 1.5 else tier.1
  max_distance_scan emission_rate wind_speed stability_class release_height
    tier.2 max_search_km (logspace_distances max_search_km) 0.5

/-- The `relevant_distances` selection of `simulate_dispersion`: the fixed
sample distances filtered to the maximum distance, replaced by five fractions
of the maximum distance when fewer than three qualify. -/
noncomputable def relevant_distances (max_distance_km : ℝ) : List ℝ :=
  let distances : List ℝ := [0.5, 1.0, 2.0, 5.0, 10.0, 15.0, 20.0]
  let rel := distances.filter fun d => d ≤ max_distance_km
  if rel.length < 3 then
    [max_distance_km * 0.1, max_distance_km * 0.3, max_distance_km * 0.5,
     max_distance_km * 0.7, max_distance_km * 1.0]
  else rel

/-- The `concentrations` table of `simulate_dispersion`: pairs of rounded
distance (km) and rounded ground-level concentration at that distance. -/
noncomputable def concentration_table (emission_rate wind_speed : ℝ)
    (stability_class : String) (effective_height max_distance_km : ℝ) :
    List (ℝ × ℝ) :=
  (relevant_distances max_distance_km).map fun dist_km =>
    (round2 dist_km,
     round4 (gaussian_plume_concentration emission_rate (dist_km * 1000)
       wind_speed stability_class effective_height 0))

/-- The result record of `DispersionService.simulate_dispersion`. -/
structure DispersionResult where
  calamity_type : String
  emission_rate_kg_s : ℝ
  duration_hours : ℝ
  total_release_kg : ℝ
  max_distance_km : ℝ
  affected_area_km2 : ℝ
  effective_release_height_m : ℝ
  concentrations : List (ℝ × ℝ)
  wind_speed_ms : ℝ
  wind_direction_deg : ℝ
  stability_class : String
  status : String

/-- `DispersionService.simulate_dispersion`: emission rate, duration and
effective height by calamity type; for explosions the critical radius is the
maximum of the blast radius and the dispersion distance; the concentration
table is sampled at the fixed distances within the maximum distance, falling
back to five fractions of it when fewer than three qualify. -/
noncomputable def simulate_dispersion (calamity_type : String)
    (magnitude wind_speed₀ wind_direction : ℝ) (stability_class : String)
    (release_height : ℝ) : DispersionResult :=
  let edh : ℝ × ℝ × ℝ :=
    if calamity_type = "fire" then (magnitude * 0.5, 4, release_height + 50)
    else if calamity_type = "explosion" then
      (magnitude * 0.1, 0.5, release_height + 100)
    else (magnitude * 0.01, 1, release_height)
  let emission_rate := edh.1
  let duration_hours := edh.2.1
  let effective_height := edh.2.2
  let wind_speed := max wind_speed₀ 0.5
  let max_distance_km :=
    if calamity_type = "explosion" then
      let blast_radius_km := calculate_blast_radius magnitude
      let dispersion_radius := calculate_max_distance emission_rate wind_speed
        stability_class effective_height 10.0
      max blast_radius_km dispersion_radius
    else
      calculate_max_distance emission_rate wind_speed stability_class
        effective_height 1.0
  let concentrations := concentration_table emission_rate wind_speed
    stability_class effective_height max_distance_km
  let plume_width_factor : ℝ := if calamity_type = "explosion" then 0.5 else 0.3
  let affected_area_km2 := max_distance_km * max_distance_km * plume_width_factor
  let total_release_kg := emission_rate * duration_hours * 3600
  { calamity_type := calamity_type
    emission_rate_kg_s := emission_rate
    duration_hours := duration_hours
    total_release_kg := total_release_kg
    max_distance_km := round2 max_distance_km
    affected_area_km2 := round2 affected_area_km2
    effective_release_height_m := effective_height
    concentrations := concentrations
    wind_speed_ms := wind_speed
    wind_direction_deg := wind_direction
    stability_class := stability_class
    status := "completed" }

/-- `DispersionService.determine_stability_class`: simplified Turner-style
determination from wind speed and solar radiation (the cloud-cover argument is
accepted but unused by the code). -/
noncomputable def determine_stability_class (wind_speed_ms : ℝ) (solar_radiation : String)
    (_cloud_cover : ℤ) : String :=
  if wind_speed_ms < 2 then
    if solar_radiation = "strong" then "A"
    else if solar_radiation = "moderate" then "B"
    else "E"
  else if wind_speed_ms < 3 then
    if solar_radiation = "strong" then "B"
    else if solar_radiation = "moderate" then "C"
    else "E"
  else if wind_speed_ms < 5 then
    if solar_radiation = "strong" then "C"
    else "D"
  else "D"

end DispersionService

namespace SimulationService

/-- One pollutant inventory entry of a facility record. -/
structure Pollutant where
  name : String
  release_amount : ℝ

/-- A facility record as used by `run_simulation` (resolved by the facilities
provider, or the synthetic fallback of lines 53-59). -/
structure Facility where
  facility_id : String
  latitude : ℝ
  longitude : ℝ
  facility_name : String
  pollutants : List Pollutant

/-- The synthetic fallback facility substituted when lookup fails. -/
def synthetic_facility (site_id : String) : Facility :=
  { facility_id := site_id
    latitude := 45.0
    longitude := 10.0
    facility_name := "Unknown Facility"
    pollutants := [{ name := "Mixed contaminants", release_amount := 1000 }] }

/-- Resolved weather-condition fields, after the meteorological lookup and the
override merge of `run_simulation` (absent keys are modelled as `none`; the
code reads them with `dict.get(key, default)`). -/
structure WeatherConditions where
  wind_speed_ms : Option ℝ
  wind_direction_deg : Option ℝ
  temperature_c : Option ℝ
  pressure_hpa : Option ℝ
  boundary_layer_height_m : Option ℝ
  stability_class : Option String
  solar_radiation : Option String

/-- The `affected_metrics` record of `_simulate_earthquake`. -/
structure QuakeMetrics where
  est_population : ℤ
  affected_area_km2 : ℝ
  primary_toxins : List String
  health_risks : List String

/-- The result record of `SimulationService._simulate_earthquake`. -/
structure QuakeResult where
  magnitude_richter : ℝ
  critical_radius_km : ℝ
  damage_level : String
  damage_probability : ℝ
  released_pollutants_kg : ℝ
  affected_metrics : QuakeMetrics
  fallout_geometry : List (ℝ × ℝ)
  status : String

/-- The magnitude-to-radius empirical scaling of `_simulate_earthquake`:
`10 * 10^(magnitude/3)`, capped at 50 km. -/
noncomputable def earthquake_radius_km (magnitude : ℝ) : ℝ :=
  min (10 * (10 : ℝ) ^ (magnitude / 3)) 50.0

/-- The structural damage probability band of `_simulate_earthquake`. -/
noncomputable def damage_probability (magnitude : ℝ) : ℝ :=
  if magnitude < 5.0 then 0.1
  else if magnitude < 6.0 then 0.3
  else if magnitude < 7.0 then 0.6
  else 0.9

/-- The structural damage level band of `_simulate_earthquake`. -/
noncomputable def damage_level (magnitude : ℝ) : String :=
  if magnitude < 5.0 then "Minor"
  else if magnitude < 6.0 then "Moderate"
  else if magnitude < 7.0 then "Severe"
  else "Critical"

/-- `SimulationService._simulate_earthquake`: radius and damage band from the
magnitude, pollutant release as 20% of inventory scaled by damage probability,
circle-area population exposure at 500 per km², magnitude-gated health risks,
and the 32-point circular polygon. -/
noncomputable def simulate_earthquake (magnitude lat lon : ℝ)
    (facility : Facility) : QuakeResult :=
  let radius_km := earthquake_radius_km magnitude
  let damage_prob := damage_probability magnitude
  let total_pollutants := (facility.pollutants.map Pollutant.release_amount).sum
  let released_amount := total_pollutants * damage_prob * 0.2
  let affected_area_km2 := 3.14159 * radius_km ^ 2
  let est_population := pyInt (affected_area_km2 * 500)
  let health_risks :=
    ["Structural collapse risk"] ++
    (if 5.5 < magnitude then ["Hazardous material release"] else []) ++
    (if 6.0 < magnitude then ["Secondary fires", "Water contamination"] else [])
  let coords := fallout_polygon_coords lat lon radius_km
  { magnitude_richter := magnitude
    critical_radius_km := radius_km
    damage_level := damage_level magnitude
    damage_probability := damage_prob
    released_pollutants_kg := released_amount
    affected_metrics :=
      { est_population := est_population
        affected_area_km2 := round2 affected_area_km2
        primary_toxins := (facility.pollutants.take 3).map Pollutant.name
        health_risks := health_risks }
    fallout_geometry := coords
    status := "completed" }

/-- The outcome of one orchestrated simulation: the model-specific result
record, or the error record `{"error": ..., "status": "failed"}`. -/
inductive SimResult where
  | flood (r : HydrologicalService.FloodResult)
  | dispersion (r : DispersionService.DispersionResult)
  | earthquake (r : QuakeResult)
  | failed (error : String)

/-- The `status` entry of a result record. -/
def SimResult.status : SimResult → String
  | .flood _ => "completed"
  | .dispersion _ => "completed"
  | .earthquake _ => "completed"
  | .failed _ => "failed"

/-- The `error` entry of a result record, when present. -/
def SimResult.error : SimResult → Option String
  | .failed e => some e
  | _ => none

/-- The slope factor of `_apply_terrain_corrections`: 1.3 above 15°, 1.15
above 8°, else 1.0 (the code also records it as `terrain_slope_factor`). -/
noncomputable def slope_factor (slope : ℝ) : ℝ :=
  if 15 < slope then 1.3
  else if 8 < slope then 1.15
  else 1.0

/-- `SimulationService._apply_terrain_corrections`: when the result record has
a `critical_radius_km` key (flood and earthquake records; dispersion records
have `max_distance_km` instead and are left unchanged), the radius is scaled by
the slope factor and rounded, and the affected area and population are
recomputed from the corrected radius with the constants 3.14159 and 500. -/
noncomputable def apply_terrain_corrections (results : SimResult) (slope : ℝ) :
    SimResult :=
  let f := slope_factor slope
  match results with
  | .flood fr =>
    let corrected := round2 (fr.critical_radius_km * f)
    let area := 3.14159 * corrected ^ 2
    .flood { fr with
      critical_radius_km := corrected
      affected_metrics := { fr.affected_metrics with
        affected_area_km2 := round2 area
        est_population := pyInt (area * 500) } }
  | .earthquake er =>
    let corrected := round2 (er.critical_radius_km * f)
    let area := 3.14159 * corrected ^ 2
    .earthquake { er with
      critical_radius_km := corrected
      affected_metrics := { er.affected_metrics with
        affected_area_km2 := round2 area
        est_population := pyInt (area * 500) } }
  | .dispersion dr => .dispersion dr
  | .failed e => .failed e

/-- The context resolved by steps 1-3 of `run_simulation` (facility lookup with
synthetic fallback, weather with override merge, terrain with the defaults
100 m and 5°); the providers behind it are external collaborators. -/
structure ResolvedContext where
  facility : Facility
  weather : WeatherConditions
  elevation : ℝ
  slope : ℝ

/-- `SimulationService.run_simulation`, from the resolved context on: dispatch
on the lowered calamity type (flood, fire/explosion, earthquake, otherwise the
unknown-type error record), then terrain corrections on completed results.
The code also attaches `facility_info` and `meteorological_conditions` context
entries to completed results, which carry no simulation content. -/
noncomputable def run_simulation (ctx : ResolvedContext)
    (calamity_type : String) (magnitude : ℝ) : SimResult :=
  let lat := ctx.facility.latitude
  let lon := ctx.facility.longitude
  let results : SimResult :=
    if pyLower calamity_type = "flood" then
      .flood (HydrologicalService.simulate_flood magnitude lat lon 100.0)
    else if pyLower calamity_type = "fire" ∨ pyLower calamity_type = "explosion" then
      .dispersion (DispersionService.simulate_dispersion calamity_type magnitude
        ((ctx.weather.wind_speed_ms).getD 5.0)
        ((ctx.weather.wind_direction_deg).getD 0.0) "D" 10.0)
    else if pyLower calamity_type = "earthquake" then
      .earthquake (simulate_earthquake magnitude lat lon ctx.facility)
    else
      .failed ("Unknown calamity type: " ++ calamity_type)
  if results.status = "completed" then
    apply_terrain_corrections results ctx.slope
  else results

end SimulationService

namespace SimulationRoute

/-- The task record of the simulation route, as finalized by the background
task `run_simulation` of `api/routes/simulation.py`. -/
structure TaskState where
  status : String
  progress : ℤ
  current_step : String
  error : Option String

/-- The background task of `api/routes/simulation.py`: progress checkpoints 10,
40 and 80 are written on stage entry, then the task is finalized `COMPLETED`
with progress 100, or `FAILED` leaving progress at the 80 checkpoint with the
result's error message (progress is set to 0 only by the exception handler,
which cannot fire in this total model of the engine). -/
noncomputable def run_simulation_task (ctx : SimulationService.ResolvedContext)
    (calamity_type : String) (magnitude : ℝ) : TaskState :=
  let results := SimulationService.run_simulation ctx calamity_type magnitude
  if results.status = "completed" then
    { status := "COMPLETED", progress := 100, current_step := "Completed",
      error := none }
  else
    { status := "FAILED", progress := 80, current_step := "Failed",
      error := some ((results.error).getD "Unknown error") }

/-- A concrete resolved context built from the synthetic fallback facility, an
empty weather record and the default terrain values, for instantiations. -/
def default_context : SimulationService.ResolvedContext :=
  { facility := SimulationService.synthetic_facility "ind_site_taloja_44"
    weather := { wind_speed_ms := none, wind_direction_deg := none,
                 temperature_c := none, pressure_hpa := none,
                 boundary_layer_height_m := none, stability_class := none,
                 solar_radiation := none }
    elevation := 100.0
    slope := 5.0 }

end SimulationRoute

namespace SimulationService

/-- The `critical_radius_km` entry of a result record, when present (flood and
earthquake records carry it; dispersion records have `max_distance_km` only). -/
def SimResult.critical_radius_km : SimResult → Option ℝ
  | .flood fr => some fr.critical_radius_km
  | .earthquake er => some er.critical_radius_km
  | .dispersion _ => none
  | .failed _ => none

/-- The `affected_metrics.affected_area_km2` entry of a result record. -/
def SimResult.affected_area_km2 : SimResult → Option ℝ
  | .flood fr => some fr.affected_metrics.affected_area_km2
  | .earthquake er => some er.affected_metrics.affected_area_km2
  | .dispersion _ => none
  | .failed _ => none

/-- The `affected_metrics.est_population` entry of a result record. -/
def SimResult.est_population : SimResult → Option ℤ
  | .flood fr => some fr.affected_metrics.est_population
  | .earthquake er => some er.affected_metrics.est_population
  | .dispersion _ => none
  | .failed _ => none

/-- The `stability_class` entry of a result record (dispersion results only). -/
def SimResult.stability_class : SimResult → Option String
  | .dispersion dr => some dr.stability_class
  | _ => none

/-- A resolved context with its weather's stability-class field overwritten
(used to state that resolved stability information cannot reach the result). -/
def set_stability (ctx : ResolvedContext) (sc : String) : ResolvedContext :=
  { ctx with weather := { ctx.weather with stability_class := some sc } }

end SimulationService

/-! ## Shared auxiliary lemmas -/

/-- Rounding to two decimals moves a value by at most 1/200. -/
theorem abs_round2_sub (x : ℝ) : |round2 x - x| ≤ 1 / 200 := by
  have h1 := sub_half_lt_round (x * 100)
  have h2 := round_le_add_half (x * 100)
  unfold round2
  rw [abs_le]
  constructor <;> [linarith; linarith]

/-- Rounding to four decimals moves a value by at most 1/20000. -/
theorem abs_round4_sub (x : ℝ) : |round4 x - x| ≤ 1 / 20000 := by
  have h1 := sub_half_lt_round (x * 10000)
  have h2 := round_le_add_half (x * 10000)
  unfold round4
  rw [abs_le]
  constructor <;> [linarith; linarith]

/-- `round2` is strictly monotone across a gap wider than one hundredth. -/
theorem round2_lt_round2 {a b : ℝ} (h : a + 1 / 100 < b) : round2 a < round2 b := by
  have ha := abs_round2_sub a
  have hb := abs_round2_sub b
  rw [abs_le] at ha hb
  linarith [ha.1, ha.2, hb.1, hb.2]

/-- `round2` preserves nonnegativity. -/
theorem round2_nonneg {x : ℝ} (h : 0 ≤ x) : 0 ≤ round2 x := by
  unfold round2
  have h1 := sub_half_lt_round (x * 100)
  have : (0 : ℤ) ≤ round (x * 100) := by
    have hgt : ((-1 : ℤ) : ℝ) < (round (x * 100) : ℝ) := by
      push_cast
      nlinarith
    have hgtz : (-1 : ℤ) < round (x * 100) := by exact_mod_cast hgt
    omega
  positivity

/-- `round4` preserves nonnegativity. -/
theorem round4_nonneg {x : ℝ} (h : 0 ≤ x) : 0 ≤ round4 x := by
  unfold round4
  have h1 := sub_half_lt_round (x * 10000)
  have : (0 : ℤ) ≤ round (x * 10000) := by
    have hgt : ((-1 : ℤ) : ℝ) < (round (x * 10000) : ℝ) := by
      push_cast
      nlinarith
    have hgtz : (-1 : ℤ) < round (x * 10000) := by exact_mod_cast hgt
    omega
  positivity

/-- `round2` fixes values that are exact hundredths. -/
theorem round2_intCast_div (n : ℤ) : round2 ((n : ℝ) / 100) = (n : ℝ) / 100 := by
  unfold round2
  rw [div_mul_cancel₀ _ (by norm_num : (100 : ℝ) ≠ 0), round_intCast]

/-- `pyInt` agrees with the floor on nonnegative arguments. -/
theorem pyInt_of_nonneg {x : ℝ} (h : 0 ≤ x) : pyInt x = ⌊x⌋ := by
  unfold pyInt
  rw [if_neg (not_lt.mpr h)]

/-! ## Claim theorems -/

/-- C8: every generated fallout polygon is a closed ring of exactly 33
[longitude, latitude] vertices (32 edges) whose first and last coordinate pairs
are identical, and every vertex lies on the circle of the given radius
converted at 111 km per degree around the centre. -/
theorem fallout_polygon_closed_ring (center_lat center_lon radius_km : ℝ) :
    (fallout_polygon_coords center_lat center_lon radius_km).length = 33 ∧
    (fallout_polygon_coords center_lat center_lon radius_km).head? =
      (fallout_polygon_coords center_lat center_lon radius_km).getLast? ∧
    ∀ p ∈ fallout_polygon_coords center_lat center_lon radius_km,
      (p.1 - center_lon) ^ 2 + (p.2 - center_lat) ^ 2 = (radius_km / 111) ^ 2 := by
  refine ⟨by simp [fallout_polygon_coords], ?_, ?_⟩
  · simp only [fallout_polygon_coords, List.head?_eq_getElem?, List.getLast?_eq_getElem?,
      List.length_map, List.length_range, List.getElem?_map, List.getElem?_range]
    norm_num
  · intro p hp
    simp only [fallout_polygon_coords, List.mem_map, List.mem_range] at hp
    obtain ⟨i, -, rfl⟩ := hp
    have key := Real.sin_sq_add_cos_sq (((i : ℕ) : ℝ) / ((32 : ℕ) : ℝ) * (2 * Real.pi))
    push_cast at key ⊢
    ring_nf
    ring_nf at key
    nlinarith [key]

/-- C5 counterexample: at Richter magnitude exactly 5.0 the seismic radius is
the 50 km cap, not approximately 17.8 km — the uncapped value `10 * 10^(5/3)`
already exceeds 50, so the claimed value is off by more than 30 km. -/
theorem earthquake_radius_five_not_17_8 :
    SimulationService.earthquake_radius_km 5 = 50 ∧
    ¬ |SimulationService.earthquake_radius_km 5 - 17.8| ≤ 5 := by
  have h1 : (10 : ℝ) ^ (1 : ℝ) ≤ (10 : ℝ) ^ ((5 : ℝ) / 3) :=
    Real.rpow_le_rpow_of_exponent_le (by norm_num) (by norm_num)
  rw [Real.rpow_one] at h1
  have hcap : SimulationService.earthquake_radius_km 5 = 50 := by
    unfold SimulationService.earthquake_radius_km
    rw [min_eq_right (by linarith)]
    norm_num
  refine ⟨hcap, ?_⟩
  rw [hcap]
  rw [abs_le]
  intro h
  linarith [h.1]

/-- C5 amended: at Richter magnitude exactly 5.0 the seismic radius equals the
50 km cap (the uncapped scaling value `10 * 10^(5/3) ≈ 464 km` exceeds it), and
the damage tier at exactly 5.0 is "Moderate" (the band boundary is inclusive). -/
theorem earthquake_radius_five_capped_and_moderate :
    SimulationService.earthquake_radius_km 5 = 50 ∧
    50 < 10 * (10 : ℝ) ^ ((5 : ℝ) / 3) ∧
    SimulationService.damage_level 5 = "Moderate" := by
  have h1 : (10 : ℝ) ^ (1 : ℝ) ≤ (10 : ℝ) ^ ((5 : ℝ) / 3) :=
    Real.rpow_le_rpow_of_exponent_le (by norm_num) (by norm_num)
  rw [Real.rpow_one] at h1
  refine ⟨?_, by linarith, ?_⟩
  · unfold SimulationService.earthquake_radius_km
    rw [min_eq_right (by linarith)]
    norm_num
  · unfold SimulationService.damage_level
    norm_num

/-- C4 counterexample: the blast radius is not strictly increasing for every
positive magnitude — at 1 kg TNT equivalent, both `blastRadius(1)` and
`blastRadius(2)` sit on the 0.1 km floor, so doubling the magnitude does not
increase the radius. -/
theorem blast_radius_not_strict_at_one :
    DispersionService.calculate_blast_radius (2 * 1) =
      DispersionService.calculate_blast_radius 1 := by
  unfold DispersionService.calculate_blast_radius
  have h1 : (1 : ℝ) ^ ((1 : ℝ) / 3) = 1 := Real.one_rpow _
  have h2 : (2 : ℝ) ^ ((1 : ℝ) / 3) ≤ 2 := by
    calc (2 : ℝ) ^ ((1 : ℝ) / 3) ≤ (2 : ℝ) ^ (1 : ℝ) :=
          Real.rpow_le_rpow_of_exponent_le (by norm_num) (by norm_num)
      _ = 2 := Real.rpow_one 2
  have h2p : (0 : ℝ) ≤ (2 : ℝ) ^ ((1 : ℝ) / 3) := Real.rpow_nonneg (by norm_num) _
  rw [show ((2 : ℝ) * 1) = 2 by norm_num, h1]
  rw [max_eq_left (by norm_num : (18 : ℝ) * 1 / 1000 ≤ 0.1)]
  rw [max_eq_left (by nlinarith : (18 : ℝ) * (2 : ℝ) ^ ((1 : ℝ) / 3) / 1000 ≤ 0.1)]

/-- C4 amended: the cube-root blast-radius law is strictly increasing in the
magnitude once clear of the 0.1 km floor: for every TNT-equivalent magnitude of
at least 172 kg (where `18 * m^(1/3)` exceeds the 100 m floor),
`blastRadius(2m) > blastRadius(m)`; below the floor region both values can
coincide at 0.1 km. -/
theorem blast_radius_strict_above_floor (m : ℝ) (hm : 172 ≤ m) :
    DispersionService.calculate_blast_radius m <
      DispersionService.calculate_blast_radius (2 * m) := by
  have third_pos : (0 : ℝ) < 1 / 3 := by norm_num
  have key : ∀ x : ℝ, 172 ≤ x →
      DispersionService.calculate_blast_radius x = 18 * x ^ ((1 : ℝ) / 3) / 1000 := by
    intro x hx
    have hx0 : (0 : ℝ) ≤ x := by linarith
    have hcube : ((50 : ℝ) / 9) ^ (3 : ℕ) ≤ (x ^ ((1 : ℝ) / 3)) ^ (3 : ℕ) := by
      have hrw : (x ^ ((1 : ℝ) / 3)) ^ (3 : ℕ) = x := by
        rw [← Real.rpow_natCast (x ^ ((1 : ℝ) / 3)) 3, ← Real.rpow_mul hx0]
        norm_num
      rw [hrw]
      norm_num
      linarith
    have hge : (50 : ℝ) / 9 ≤ x ^ ((1 : ℝ) / 3) :=
      le_of_pow_le_pow_left₀ (by norm_num) (Real.rpow_nonneg hx0 _) hcube
    unfold DispersionService.calculate_blast_radius
    rw [max_eq_right (by linarith)]
  have h2m : 172 ≤ 2 * m := by linarith
  rw [key m hm, key (2 * m) h2m]
  have hlt : m ^ ((1 : ℝ) / 3) < (2 * m) ^ ((1 : ℝ) / 3) :=
    Real.rpow_lt_rpow (by linarith) (by linarith) third_pos
  linarith

/-- C4 witness: the amended strict-increase statement instantiated at the
concrete magnitude 172 kg. -/
theorem blast_radius_strict_above_floor_witness :
    (172 : ℝ) ≤ 172 ∧
    DispersionService.calculate_blast_radius 172 <
      DispersionService.calculate_blast_radius (2 * 172) :=
  ⟨le_refl _, blast_radius_strict_above_floor 172 (le_refl _)⟩

/-- C7: the flood affected radius is `2 km * (1 + m*0.5)` capped at the
configured 50 km maximum; at magnitude 2.5 m the radius is 4.5 km, the reported
affected area is within 0.05 of 63.6 km² and the estimated population within 10
of 31 800, before terrain correction. -/
theorem flood_radius_formula_and_scenario_b (lat lon : ℝ) :
    (∀ m : ℝ, HydrologicalService.calculate_flood_radius m =
      min (2.0 * (1 + m * 0.5)) Settings.MAX_SIMULATION_RADIUS_KM) ∧
    Settings.MAX_SIMULATION_RADIUS_KM = 50 ∧
    (HydrologicalService.simulate_flood 2.5 lat lon 100).critical_radius_km = 4.5 ∧
    |(HydrologicalService.simulate_flood 2.5 lat lon
        100).affected_metrics.affected_area_km2 - 63.6| ≤ 0.05 ∧
    |((HydrologicalService.simulate_flood 2.5 lat lon
        100).affected_metrics.est_population : ℝ) - 31800| ≤ 10 := by
  have hpi_lo := Real.pi_gt_d6
  have hpi_hi := Real.pi_lt_d6
  have hr : HydrologicalService.calculate_flood_radius 2.5 = 4.5 := by
    unfold HydrologicalService.calculate_flood_radius Settings.MAX_SIMULATION_RADIUS_KM
    rw [min_eq_left (by norm_num)]
    norm_num
  have hcrit : (HydrologicalService.simulate_flood 2.5 lat lon 100).critical_radius_km =
      HydrologicalService.calculate_flood_radius 2.5 := rfl
  have hmet : (HydrologicalService.simulate_flood 2.5 lat lon 100).affected_metrics =
      HydrologicalService.calculate_impact_metrics
        (HydrologicalService.model_pollutant_transport 100 2.5)
        (HydrologicalService.calculate_flood_radius 2.5) := rfl
  have harea : (HydrologicalService.simulate_flood 2.5 lat lon
      100).affected_metrics.affected_area_km2 = round2 (Real.pi * (4.5 : ℝ) ^ 2) := by
    rw [hmet, hr]
    rfl
  have hpop : (HydrologicalService.simulate_flood 2.5 lat lon
      100).affected_metrics.est_population = pyInt (Real.pi * (4.5 : ℝ) ^ 2 * 500) := by
    rw [hmet, hr]
    rfl
  refine ⟨fun _ => rfl, by norm_num [Settings.MAX_SIMULATION_RADIUS_KM],
    by rw [hcrit, hr], ?_, ?_⟩
  · rw [harea]
    have hround : round (Real.pi * (4.5 : ℝ) ^ 2 * 100) = 6362 := by
      rw [round_eq]
      rw [show (6362 : ℤ) = ((6362 : ℤ) : ℤ) from rfl]
      rw [Int.floor_eq_iff]
      constructor
      · push_cast
        nlinarith
      · push_cast
        nlinarith
    unfold round2
    rw [hround]
    rw [abs_le]
    constructor <;> norm_num
  · rw [hpop]
    have hnn : (0 : ℝ) ≤ Real.pi * (4.5 : ℝ) ^ 2 * 500 := by positivity
    rw [pyInt_of_nonneg hnn]
    have hfl : ⌊Real.pi * (4.5 : ℝ) ^ 2 * 500⌋ = 31808 := by
      rw [Int.floor_eq_iff]
      constructor
      · push_cast
        nlinarith
      · push_cast
        nlinarith
    rw [hfl]
    rw [abs_le]
    constructor <;> norm_num

/-- C9 counterexample: at emission rate 0 (a fire of magnitude 0) and downwind
distance 0 the Gaussian-plume function returns the sentinel value 0, which is
not positive, so the sentinel is not positive for every emission rate. -/
theorem gaussian_plume_sentinel_zero_at_zero_rate :
    DispersionService.gaussian_plume_concentration 0 0 5 "D" 60 0 = 0 := by
  unfold DispersionService.gaussian_plume_concentration
  rw [if_pos (le_refl (0 : ℝ))]
  simp

/-- C9 amended: for every positive emission rate and every downwind distance
d ≤ 0, the Gaussian-plume function returns the fixed point-source sentinel (the
rate distributed over a 10 m-radius sphere), a well-defined positive real, for
every stability class and spread value; at emission rate 0 the sentinel
degenerates to 0. -/
theorem gaussian_plume_sentinel_positive (emission_rate distance_m wind_speed : ℝ)
    (stability_class : String) (release_height receptor_height : ℝ)
    (hrate : 0 < emission_rate) (hd : distance_m ≤ 0) :
    DispersionService.gaussian_plume_concentration emission_rate distance_m
        wind_speed stability_class release_height receptor_height =
      emission_rate * 1000000 / (4 / 3 * Real.pi * 10 ^ 3) ∧
    0 < DispersionService.gaussian_plume_concentration emission_rate distance_m
        wind_speed stability_class release_height receptor_height := by
  unfold DispersionService.gaussian_plume_concentration
  rw [if_pos hd]
  refine ⟨rfl, ?_⟩
  have hpi := Real.pi_pos
  positivity

/-- C9 witness: the sentinel equation and positivity instantiated at emission
rate 1 kg/s and distance 0. -/
theorem gaussian_plume_sentinel_positive_witness :
    (0 : ℝ) < 1 ∧ (0 : ℝ) ≤ 0 ∧
    (DispersionService.gaussian_plume_concentration 1 0 5 "D" 60 0 =
        1 * 1000000 / (4 / 3 * Real.pi * 10 ^ 3) ∧
      0 < DispersionService.gaussian_plume_concentration 1 0 5 "D" 60 0) :=
  ⟨by norm_num, le_refl _,
    gaussian_plume_sentinel_positive 1 0 5 "D" 60 0 (by norm_num) (le_refl _)⟩

/-- C2 counterexample: a flood of magnitude −10 m produces a completed
simulation result whose critical radius is negative (−8 km), so radii are not
≥ 0 for every real magnitude. -/
theorem flood_result_negative_radius :
    (HydrologicalService.simulate_flood (-10) 45 10 100).critical_radius_km < 0 := by
  show HydrologicalService.calculate_flood_radius (-10) < 0
  unfold HydrologicalService.calculate_flood_radius Settings.MAX_SIMULATION_RADIUS_KM
  rw [min_eq_left (by norm_num)]
  norm_num

/-- C6: the terrain correction multiplies the critical radius by 1.3 above 15°
of slope, by 1.15 above 8° and up to 15°, and by 1.0 otherwise; for any result
carrying a critical radius (flood and earthquake records) the affected area is
recomputed as the circle of the corrected radius (with the code constant
3.14159) and the population as corrected area × 500 per km²; at slope 20° the
factor is 1.3 and the corrected area equals `π * (r * 1.3)^2` within the stated
floating tolerance. -/
theorem terrain_correction_formula :
    (∀ s : ℝ, 15 < s → SimulationService.slope_factor s = 1.3) ∧
    (∀ s : ℝ, 8 < s → s ≤ 15 → SimulationService.slope_factor s = 1.15) ∧
    (∀ s : ℝ, s ≤ 8 → SimulationService.slope_factor s = 1.0) ∧
    (∀ (fr : HydrologicalService.FloodResult) (s : ℝ),
      (SimulationService.apply_terrain_corrections
          (SimulationService.SimResult.flood fr) s).critical_radius_km =
        some (round2 (fr.critical_radius_km * SimulationService.slope_factor s)) ∧
      (SimulationService.apply_terrain_corrections
          (SimulationService.SimResult.flood fr) s).affected_area_km2 =
        some (round2 (3.14159 *
          round2 (fr.critical_radius_km * SimulationService.slope_factor s) ^ 2)) ∧
      (SimulationService.apply_terrain_corrections
          (SimulationService.SimResult.flood fr) s).est_population =
        some (pyInt (3.14159 *
          round2 (fr.critical_radius_km * SimulationService.slope_factor s) ^ 2 * 500))) ∧
    (∀ (er : SimulationService.QuakeResult) (s : ℝ),
      (SimulationService.apply_terrain_corrections
          (SimulationService.SimResult.earthquake er) s).critical_radius_km =
        some (round2 (er.critical_radius_km * SimulationService.slope_factor s)) ∧
      (SimulationService.apply_terrain_corrections
          (SimulationService.SimResult.earthquake er) s).affected_area_km2 =
        some (round2 (3.14159 *
          round2 (er.critical_radius_km * SimulationService.slope_factor s) ^ 2)) ∧
      (SimulationService.apply_terrain_corrections
          (SimulationService.SimResult.earthquake er) s).est_population =
        some (pyInt (3.14159 *
          round2 (er.critical_radius_km * SimulationService.slope_factor s) ^ 2 * 500))) ∧
    SimulationService.slope_factor 20 = 1.3 ∧
    (∀ r : ℝ,
      |round2 (3.14159 * round2 (r * SimulationService.slope_factor 20) ^ 2) -
          Real.pi * (r * 1.3) ^ 2| ≤ 0.05 * (1 + |r|) ^ 2) := by
  have hf20 : SimulationService.slope_factor 20 = 1.3 := by
    unfold SimulationService.slope_factor
    rw [if_pos (by norm_num : (15 : ℝ) < 20)]
  refine ⟨?_, ?_, ?_, ?_, ?_, hf20, ?_⟩
  · intro s hs
    unfold SimulationService.slope_factor
    rw [if_pos hs]
  · intro s hs8 hs15
    unfold SimulationService.slope_factor
    rw [if_neg (not_lt.mpr hs15), if_pos hs8]
  · intro s hs
    unfold SimulationService.slope_factor
    rw [if_neg (by linarith), if_neg (not_lt.mpr hs)]
  · intro fr s
    exact ⟨rfl, rfl, rfl⟩
  · intro er s
    exact ⟨rfl, rfl, rfl⟩
  · intro r
    rw [hf20]
    have hpi_lo := Real.pi_gt_d6
    have hpi_hi := Real.pi_lt_d6
    set R := round2 (r * 1.3) with hRdef
    have h1 := abs_round2_sub (r * 1.3)
    have h2 := abs_round2_sub (3.14159 * R ^ 2)
    rw [abs_le] at h1 h2
    have hra := le_abs_self r
    have hrb := neg_abs_le r
    have ht : (0 : ℝ) ≤ |r| := abs_nonneg r
    rw [abs_le]
    constructor <;>
      nlinarith [sq_nonneg R, sq_nonneg r, sq_nonneg (R - 1.3 * r), sq_nonneg (R + 1.3 * r),
        sq_nonneg (|r| - r), sq_nonneg (|r| + r), sq_nonneg (1 + |r|),
        mul_le_mul_of_nonneg_left h2.2 (le_of_lt Real.pi_pos)]

/-- C6 witness: the slope-factor band conditions discharged at the concrete
slopes 20°, 10° and 5°. -/
theorem terrain_correction_formula_witness :
    ((15 : ℝ) < 20 ∧ SimulationService.slope_factor 20 = 1.3) ∧
    ((8 : ℝ) < 10 ∧ (10 : ℝ) ≤ 15 ∧ SimulationService.slope_factor 10 = 1.15) ∧
    ((5 : ℝ) ≤ 8 ∧ SimulationService.slope_factor 5 = 1.0) :=
  ⟨⟨by norm_num, terrain_correction_formula.1 20 (by norm_num)⟩,
   ⟨by norm_num, by norm_num,
     terrain_correction_formula.2.1 10 (by norm_num) (by norm_num)⟩,
   ⟨by norm_num, terrain_correction_formula.2.2.1 5 (by norm_num)⟩⟩

/-- C1 counterexample: a flood simulation submitted with the non-positive
magnitude 0 is not rejected — the task is finalized COMPLETED, not FAILED, so
non-positive magnitudes do not fail before the model runs. -/
theorem nonpositive_magnitude_not_rejected :
    ¬ (0 : ℝ) < 0 ∧
    (SimulationRoute.run_simulation_task SimulationRoute.default_context
        "flood" 0).status = "COMPLETED" := by
  refine ⟨by norm_num, ?_⟩
  have hlow : pyLower "flood" = "flood" := by decide
  simp [SimulationRoute.run_simulation_task, SimulationService.run_simulation, hlow,
    SimulationService.SimResult.status, SimulationService.apply_terrain_corrections]

/-- C1 amended: a submission whose calamity type is outside {flood, fire,
explosion, earthquake} is finalized FAILED before any model runs, with the
descriptive message naming the unknown type, but the task's progress is left at
the 80% checkpoint rather than reset to 0; and non-positive magnitudes are not
rejected at all (a flood of magnitude −3 is finalized COMPLETED). -/
theorem unknown_calamity_failed_progress_80
    (ctx : SimulationService.ResolvedContext) (ct : String) (m : ℝ)
    (h : pyLower ct ∉ (["flood", "fire", "explosion", "earthquake"] : List String)) :
    (SimulationRoute.run_simulation_task ctx ct m).status = "FAILED" ∧
    (SimulationRoute.run_simulation_task ctx ct m).progress = 80 ∧
    (SimulationRoute.run_simulation_task ctx ct m).error =
      some ("Unknown calamity type: " ++ ct) ∧
    (SimulationRoute.run_simulation_task SimulationRoute.default_context
        "flood" (-3)).status = "COMPLETED" := by
  have hne : pyLower ct ≠ "flood" ∧ pyLower ct ≠ "fire" ∧
      pyLower ct ≠ "explosion" ∧ pyLower ct ≠ "earthquake" := by
    simpa using h
  obtain ⟨h1, h2, h3, h4⟩ := hne
  have hlow : pyLower "flood" = "flood" := by decide
  refine ⟨?_, ?_, ?_, ?_⟩ <;>
    simp [SimulationRoute.run_simulation_task, SimulationService.run_simulation,
      h1, h2, h3, h4, hlow, SimulationService.SimResult.status,
      SimulationService.SimResult.error, SimulationService.apply_terrain_corrections]

/-- C1 witness: the amended statement instantiated at the unsupported calamity
type "volcano" with magnitude 6.5 in the synthetic default context. -/
theorem unknown_calamity_failed_progress_80_witness :
    pyLower "volcano" ∉ (["flood", "fire", "explosion", "earthquake"] : List String) ∧
    ((SimulationRoute.run_simulation_task SimulationRoute.default_context
        "volcano" 6.5).status = "FAILED" ∧
      (SimulationRoute.run_simulation_task SimulationRoute.default_context
        "volcano" 6.5).progress = 80 ∧
      (SimulationRoute.run_simulation_task SimulationRoute.default_context
        "volcano" 6.5).error = some ("Unknown calamity type: " ++ "volcano") ∧
      (SimulationRoute.run_simulation_task SimulationRoute.default_context
        "flood" (-3)).status = "COMPLETED") :=
  ⟨by decide,
    unknown_calamity_failed_progress_80 SimulationRoute.default_context
      "volcano" 6.5 (by decide)⟩

/-- C10: for fire and explosion runs the orchestrator invokes the dispersion
model with the hardcoded stability class "D" and release height 10.0 m: the
produced result is exactly the dispersion record built from the weather's wind
speed and direction alone; two runs whose resolved contexts differ only in
weather fields other than wind speed and direction (for example solar radiation
or a resolved Pasquill-Gifford stability class) produce identical results, and
overwriting the weather's stability class with any output of
`determine_stability_class` never changes the result. -/
theorem dispersion_stability_hardcoded (ct : String) (m : ℝ)
    (hct : pyLower ct = "fire" ∨ pyLower ct = "explosion") :
    (∀ ctx : SimulationService.ResolvedContext,
      SimulationService.run_simulation ctx ct m =
        SimulationService.SimResult.dispersion
          (DispersionService.simulate_dispersion ct m
            ((ctx.weather.wind_speed_ms).getD 5.0)
            ((ctx.weather.wind_direction_deg).getD 0.0) "D" 10.0) ∧
      (SimulationService.run_simulation ctx ct m).stability_class = some "D") ∧
    (∀ ctx₁ ctx₂ : SimulationService.ResolvedContext,
      ctx₁.facility = ctx₂.facility → ctx₁.elevation = ctx₂.elevation →
      ctx₁.slope = ctx₂.slope →
      ctx₁.weather.wind_speed_ms = ctx₂.weather.wind_speed_ms →
      ctx₁.weather.wind_direction_deg = ctx₂.weather.wind_direction_deg →
      SimulationService.run_simulation ctx₁ ct m =
        SimulationService.run_simulation ctx₂ ct m) ∧
    (∀ (ctx : SimulationService.ResolvedContext) (ws : ℝ) (sr : String) (cc : ℤ),
      SimulationService.run_simulation
        (SimulationService.set_stability ctx
          (DispersionService.determine_stability_class ws sr cc)) ct m =
        SimulationService.run_simulation ctx ct m) := by
  have hrep : ∀ ctx : SimulationService.ResolvedContext,
      SimulationService.run_simulation ctx ct m =
        SimulationService.SimResult.dispersion
          (DispersionService.simulate_dispersion ct m
            ((ctx.weather.wind_speed_ms).getD 5.0)
            ((ctx.weather.wind_direction_deg).getD 0.0) "D" 10.0) := by
    intro ctx
    have hnf : pyLower ct ≠ "flood" := by
      rcases hct with h | h <;> rw [h] <;> decide
    simp only [SimulationService.run_simulation]
    rw [if_neg hnf, if_pos hct]
    simp [SimulationService.SimResult.status, SimulationService.apply_terrain_corrections]
  refine ⟨fun ctx => ⟨hrep ctx, ?_⟩, ?_, ?_⟩
  · rw [hrep ctx]
    rfl
  · intro ctx₁ ctx₂ _ _ _ hw hd
    rw [hrep ctx₁, hrep ctx₂, hw, hd]
  · intro ctx ws sr cc
    rw [hrep, hrep]
    rfl

/-- C10 witness: the hardcoded-stability statement instantiated at the calamity
type "fire" with magnitude 50. -/
theorem dispersion_stability_hardcoded_witness :
    (pyLower "fire" = "fire" ∨ pyLower "fire" = "explosion") ∧
    ((∀ ctx : SimulationService.ResolvedContext,
      SimulationService.run_simulation ctx "fire" 50 =
        SimulationService.SimResult.dispersion
          (DispersionService.simulate_dispersion "fire" 50
            ((ctx.weather.wind_speed_ms).getD 5.0)
            ((ctx.weather.wind_direction_deg).getD 0.0) "D" 10.0) ∧
      (SimulationService.run_simulation ctx "fire" 50).stability_class = some "D") ∧
    (∀ ctx₁ ctx₂ : SimulationService.ResolvedContext,
      ctx₁.facility = ctx₂.facility → ctx₁.elevation = ctx₂.elevation →
      ctx₁.slope = ctx₂.slope →
      ctx₁.weather.wind_speed_ms = ctx₂.weather.wind_speed_ms →
      ctx₁.weather.wind_direction_deg = ctx₂.weather.wind_direction_deg →
      SimulationService.run_simulation ctx₁ "fire" 50 =
        SimulationService.run_simulation ctx₂ "fire" 50) ∧
    (∀ (ctx : SimulationService.ResolvedContext) (ws : ℝ) (sr : String) (cc : ℤ),
      SimulationService.run_simulation
        (SimulationService.set_stability ctx
          (DispersionService.determine_stability_class ws sr cc)) "fire" 50 =
        SimulationService.run_simulation ctx "fire" 50)) :=
  ⟨Or.inl (by decide), dispersion_stability_hardcoded "fire" 50 (Or.inl (by decide))⟩

/-- At positive downwind distance the Gaussian-plume concentration is clamped
at 0 by the code, hence nonnegative. -/
theorem gaussian_plume_nonneg (rate d u : ℝ) (sc : String) (H z : ℝ) (hd : 0 < d) :
    0 ≤ DispersionService.gaussian_plume_concentration rate d u sc H z := by
  unfold DispersionService.gaussian_plume_concentration
  rw [if_neg (not_le.mpr hd)]
  exact le_max_left 0 _

/-- Every candidate distance of the logarithmic sweep is at least the 100 m
search start, for any search ceiling of at least 20 km. -/
theorem logspace_distances_ge_100 (M : ℝ) (hM : 20 ≤ M) :
    ∀ d ∈ DispersionService.logspace_distances M, 100 ≤ d := by
  intro d hd
  unfold DispersionService.logspace_distances at hd
  simp only [List.mem_map, List.mem_range] at hd
  obtain ⟨k, -, rfl⟩ := hd
  have hlogb : (2 : ℝ) ≤ Real.logb 10 (M * 1000) := by
    have h100 : Real.logb 10 100 = 2 := by
      rw [show (100 : ℝ) = 10 ^ (2 : ℕ) by norm_num, Real.logb_pow]
      simp [Real.logb_self_eq_one]
    rw [← h100]
    exact Real.logb_le_logb_of_le (by norm_num) (by norm_num) (by linarith)
  have hk : (0 : ℝ) ≤ (k : ℝ) := Nat.cast_nonneg k
  have hexp : (2 : ℝ) ≤ 2 + (k : ℝ) * (Real.logb 10 (M * 1000) - 2) / 99 := by
    have hnum : (0 : ℝ) ≤ (k : ℝ) * (Real.logb 10 (M * 1000) - 2) / 99 := by
      apply div_nonneg _ (by norm_num)
      exact mul_nonneg hk (by linarith)
    linarith
  calc (100 : ℝ) = (10 : ℝ) ^ (2 : ℝ) := by
        rw [show ((2 : ℝ)) = ((2 : ℕ) : ℝ) by norm_num, Real.rpow_natCast]
        norm_num
    _ ≤ _ := Real.rpow_le_rpow_of_exponent_le (by norm_num) hexp

/-- The scan loop of the maximum-distance search never returns less than
0.1 km when started from a held distance of at least 0.1 km over candidate
distances of at least 100 m. -/
theorem max_distance_scan_ge (rate u : ℝ) (sc : String) (H thr MS : ℝ) :
    ∀ (l : List ℝ) (last : ℝ), 0.1 ≤ last → (∀ d ∈ l, 100 ≤ d) →
      0.1 ≤ DispersionService.max_distance_scan rate u sc H thr MS l last := by
  intro l
  induction l with
  | nil =>
    intro last hlast _
    unfold DispersionService.max_distance_scan
    exact le_trans hlast (le_max_left _ _)
  | cons d ds ih =>
    intro last hlast hall
    simp only [DispersionService.max_distance_scan]
    have hd : 100 ≤ d := hall d (List.mem_cons_self d ds)
    have hds : ∀ x ∈ ds, 100 ≤ x := fun x hx => hall x (List.mem_cons_of_mem d hx)
    split_ifs with h1 h2
    · exact ih (d / 1000) (by linarith) hds
    · exact hlast
    · exact ih last hlast hds

/-- The maximum-impact-distance search always returns at least 0.1 km (its
floor value is 0.5 km and scan updates are at least 100 m / 1000). -/
theorem calculate_max_distance_ge (rate u : ℝ) (sc : String) (H thr : ℝ) :
    0.1 ≤ DispersionService.calculate_max_distance rate u sc H thr := by
  unfold DispersionService.calculate_max_distance
  have hMS : ∀ MS : ℝ, 20 ≤ MS →
      0.1 ≤ DispersionService.max_distance_scan rate u sc H
        (if 100 < rate then ((50 : ℝ), max thr 10.0)
         else if 50 < rate then ((40 : ℝ), max thr 5.0)
         else if 10 < rate then ((30 : ℝ), max thr 2.0)
         else ((20 : ℝ), thr)).2 MS
        (DispersionService.logspace_distances MS) 0.5 := by
    intro MS h
    exact max_distance_scan_ge rate u sc H _ MS _ 0.5 (by norm_num)
      (logspace_distances_ge_100 MS h)
  apply hMS
  split_ifs <;> norm_num

/-- C2 amended: every affected area in a produced result is ≥ 0, and every
critical radius is ≥ 0 except the flood radius: the flood formula
`2 * (1 + 0.5m)` capped at 50 is ≥ 0 exactly for magnitudes ≥ −2 and negative
below −2; earthquake radii are always positive, dispersion maximum distances
are at least 0.1 km and blast radii at least the 0.1 km floor, and the
dispersion result's rounded distance and area stay positive and nonnegative. -/
theorem radii_and_areas_nonneg_except_flood :
    (∀ m : ℝ, -2 ≤ m → 0 ≤ HydrologicalService.calculate_flood_radius m) ∧
    (∀ m : ℝ, m < -2 → HydrologicalService.calculate_flood_radius m < 0) ∧
    (∀ (tox : List (ℝ × ℝ)) (r : ℝ),
      0 ≤ (HydrologicalService.calculate_impact_metrics tox r).affected_area_km2) ∧
    (∀ m : ℝ, 0 < SimulationService.earthquake_radius_km m) ∧
    (∀ (m lat lon : ℝ) (fac : SimulationService.Facility),
      0 ≤ (SimulationService.simulate_earthquake m lat lon
        fac).affected_metrics.affected_area_km2) ∧
    (∀ (rate u : ℝ) (sc : String) (H thr : ℝ),
      0.1 ≤ DispersionService.calculate_max_distance rate u sc H thr) ∧
    (∀ m : ℝ, 0.1 ≤ DispersionService.calculate_blast_radius m) ∧
    (∀ (ct : String) (m u wd : ℝ) (sc : String) (h : ℝ),
      0 ≤ (DispersionService.simulate_dispersion ct m u wd sc h).affected_area_km2 ∧
      0 < (DispersionService.simulate_dispersion ct m u wd sc h).max_distance_km) := by
  refine ⟨?_, ?_, ?_, ?_, ?_, calculate_max_distance_ge, ?_, ?_⟩
  · intro m hm
    unfold HydrologicalService.calculate_flood_radius Settings.MAX_SIMULATION_RADIUS_KM
    apply le_min (by linarith) (by norm_num)
  · intro m hm
    unfold HydrologicalService.calculate_flood_radius
    calc min (2.0 * (1 + m * 0.5)) Settings.MAX_SIMULATION_RADIUS_KM ≤
        2.0 * (1 + m * 0.5) := min_le_left _ _
      _ < 0 := by linarith
  · intro tox r
    exact round2_nonneg (by positivity)
  · intro m
    unfold SimulationService.earthquake_radius_km
    apply lt_min (by positivity) (by norm_num)
  · intro m lat lon fac
    apply round2_nonneg
    positivity
  · intro m
    exact le_max_left _ _
  · intro ct m u wd sc h
    have harea : ∀ X f : ℝ, 0 ≤ f → 0 ≤ round2 (X * X * f) := fun X f hf =>
      round2_nonneg (mul_nonneg (mul_self_nonneg X) hf)
    have hdist : ∀ X : ℝ, 0.1 ≤ X → 0 < round2 X := by
      intro X hX
      have hs := abs_round2_sub X
      rw [abs_le] at hs
      linarith [hs.1, hs.2]
    by_cases hf : ct = "fire"
    · subst hf
      simp only [DispersionService.simulate_dispersion]
      norm_num
      exact ⟨harea _ _ (by norm_num), hdist _ (calculate_max_distance_ge _ _ _ _ _)⟩
    · by_cases he : ct = "explosion"
      · subst he
        simp only [DispersionService.simulate_dispersion]
        norm_num
        refine ⟨harea _ _ (by norm_num), hdist _ ?_⟩
        exact le_trans (le_max_left _ _) (le_max_left _ _)
      · simp only [DispersionService.simulate_dispersion, if_neg hf, if_neg he]
        exact ⟨harea _ _ (by norm_num), hdist _ (calculate_max_distance_ge _ _ _ _ _)⟩

/-- C2 witness: the flood-radius sign statements discharged at the concrete
magnitudes 0 (nonnegative radius) and −3 (negative radius). -/
theorem radii_and_areas_nonneg_except_flood_witness :
    ((-2 : ℝ) ≤ 0 ∧ 0 ≤ HydrologicalService.calculate_flood_radius 0) ∧
    ((-3 : ℝ) < -2 ∧ HydrologicalService.calculate_flood_radius (-3) < 0) :=
  ⟨⟨by norm_num, radii_and_areas_nonneg_except_flood.1 0 (by norm_num)⟩,
   ⟨by norm_num, radii_and_areas_nonneg_except_flood.2.1 (-3) (by norm_num)⟩⟩

/-- For bases of at least 1, the power-law exponent 0.894 only shrinks the
base. -/
theorem rpow_894_le_self {x : ℝ} (hx : 1 ≤ x) : x ^ (0.894 : ℝ) ≤ x := by
  calc x ^ (0.894 : ℝ) ≤ x ^ (1 : ℝ) :=
        Real.rpow_le_rpow_of_exponent_le hx (by norm_num)
    _ = x := Real.rpow_one x

/-- Two-sided numeric bounds on the spread power `500 ^ 0.894 ≈ 258.8`. -/
theorem rpow_500_894_bounds :
    250 ≤ (500 : ℝ) ^ (0.894 : ℝ) ∧ (500 : ℝ) ^ (0.894 : ℝ) ≤ 300 := by
  have hnn : (0 : ℝ) ≤ (500 : ℝ) ^ (0.894 : ℝ) := Real.rpow_nonneg (by norm_num) _
  have hpow : ((500 : ℝ) ^ (0.894 : ℝ)) ^ (500 : ℕ) = (500 : ℝ) ^ (447 : ℕ) := by
    rw [← Real.rpow_natCast ((500 : ℝ) ^ (0.894 : ℝ)) 500,
      ← Real.rpow_mul (by norm_num : (0 : ℝ) ≤ 500),
      show (0.894 : ℝ) * (500 : ℕ) = ((447 : ℕ) : ℝ) by norm_num,
      Real.rpow_natCast]
  constructor
  · apply le_of_pow_le_pow_left₀ (by norm_num : (500 : ℕ) ≠ 0) hnn
    rw [hpow]
    norm_num
  · apply le_of_pow_le_pow_left₀ (by norm_num : (500 : ℕ) ≠ 0) (by norm_num)
    rw [hpow]
    norm_num

/-- Evaluation of the Gaussian plume at ground level for stability class D and
a sub-kilometre positive distance: both reflection terms coincide, giving the
closed form with the 0.894 power-law spreads floored at 1. -/
theorem gauss_D_eval (rate d u H : ℝ) (hd : 0 < d) (hd1000 : d < 1000) :
    DispersionService.gaussian_plume_concentration rate d u "D" H 0 =
      max 0 (rate * 1000000 /
          (2 * Real.pi * max u 0.5 * max (0.08 * d ^ (0.894 : ℝ)) 1.0 *
            max (0.06 * d ^ (0.894 : ℝ)) 1.0) *
        (2 * Real.exp (-(0.5) * (H / max (0.06 * d ^ (0.894 : ℝ)) 1.0) ^ 2))) := by
  unfold DispersionService.gaussian_plume_concentration
  rw [if_neg (not_le.mpr hd)]
  have hD : DispersionService.stability_classes "D" = ⟨0.08, 0.06⟩ := rfl
  rw [hD]
  simp only [if_pos hd1000]
  have hsq : ∀ s : ℝ, ((0 : ℝ) - H) / s = -(H / s) := fun s => by ring
  have hsq2 : ∀ s : ℝ, ((0 : ℝ) + H) / s = H / s := fun s => by ring
  rw [hsq, hsq2, neg_sq]
  ring_nf

/-- Upper bound on the class-D plume: dropping the spread denominators to their
1.0 floors and growing the vertical spread to any bound B only increases the
value. -/
theorem gauss_D_le (rate d u H B : ℝ) (hd : 0 < d) (hd1000 : d < 1000)
    (hrate : 0 ≤ rate) (hB1 : 1 ≤ B) (hB : 0.06 * d ^ (0.894 : ℝ) ≤ B)
    (hH : 0 ≤ H) :
    DispersionService.gaussian_plume_concentration rate d u "D" H 0 ≤
      rate * 1000000 / (2 * Real.pi * max u 0.5) *
        (2 * Real.exp (-(0.5) * (H / B) ^ 2)) := by
  rw [gauss_D_eval rate d u H hd hd1000]
  have hsy1 : (1 : ℝ) ≤ max (0.08 * d ^ (0.894 : ℝ)) 1.0 :=
    le_trans (by norm_num) (le_max_right _ _)
  have hsz1 : (1 : ℝ) ≤ max (0.06 * d ^ (0.894 : ℝ)) 1.0 :=
    le_trans (by norm_num) (le_max_right _ _)
  have hszB : max (0.06 * d ^ (0.894 : ℝ)) 1.0 ≤ B := max_le hB (by linarith)
  have hu : (0 : ℝ) < max u 0.5 := lt_of_lt_of_le (by norm_num) (le_max_right _ _)
  have hpi := Real.pi_pos
  apply max_le
  · positivity
  · have hfrac : rate * 1000000 /
        (2 * Real.pi * max u 0.5 * max (0.08 * d ^ (0.894 : ℝ)) 1.0 *
          max (0.06 * d ^ (0.894 : ℝ)) 1.0) ≤
        rate * 1000000 / (2 * Real.pi * max u 0.5) := by
      apply div_le_div_of_nonneg_left (by positivity) (by positivity)
      have hA : (0 : ℝ) < 2 * Real.pi * max u 0.5 := by positivity
      have hprod : (1 : ℝ) ≤
          max (0.08 * d ^ (0.894 : ℝ)) 1.0 * max (0.06 * d ^ (0.894 : ℝ)) 1.0 := by
        nlinarith
      nlinarith [mul_le_mul_of_nonneg_left hprod (le_of_lt hA)]
    have hexp : Real.exp (-(0.5) * (H / max (0.06 * d ^ (0.894 : ℝ)) 1.0) ^ 2) ≤
        Real.exp (-(0.5) * (H / B) ^ 2) := by
      apply Real.exp_le_exp.mpr
      have h1 : H / B ≤ H / max (0.06 * d ^ (0.894 : ℝ)) 1.0 :=
        div_le_div_of_nonneg_left hH (by linarith) hszB
      have h2 : 0 ≤ H / B := div_nonneg hH (by linarith)
      nlinarith
    apply mul_le_mul hfrac (by linarith) (by positivity) (by positivity)

/-- The class-D plume of a 50 kg/s fire release at 100 m downwind from an
effective height of 60 m is far below the 2 mg/m³ threshold. -/
theorem gauss_fire_at_100_lt_2 :
    DispersionService.gaussian_plume_concentration 50 100 5 "D" 60 0 < 2 := by
  have h100 : (100 : ℝ) ^ (0.894 : ℝ) ≤ 100 := rpow_894_le_self (by norm_num)
  have hle := gauss_D_le 50 100 5 60 6 (by norm_num) (by norm_num) (by norm_num)
    (by norm_num) (by linarith) (by norm_num)
  rw [show max (5 : ℝ) 0.5 = 5 by norm_num,
    show -(0.5 : ℝ) * ((60 : ℝ) / 6) ^ 2 = -50 by norm_num] at hle
  have hexp : Real.exp (-50 : ℝ) ≤ 1 / 2 ^ 50 := by
    rw [Real.exp_neg, one_div]
    apply inv_le_inv_of_le (by positivity)
    calc (2 : ℝ) ^ (50 : ℕ) ≤ Real.exp 1 ^ (50 : ℕ) := by
          apply pow_le_pow_left (by norm_num)
          linarith [Real.exp_one_gt_d9]
      _ = Real.exp 50 := by
          rw [← Real.exp_nat_mul]
          norm_num
  apply lt_of_le_of_lt hle
  rw [div_mul_eq_mul_div, div_lt_iff (by positivity)]
  nlinarith [Real.exp_pos (-50 : ℝ), Real.pi_gt_d6]

/-- The class-D plume of the same release at 50 m downwind is below half of
one ten-thousandth, so its table entry rounds to 0. -/
theorem gauss_fire_at_50_lt_round4 :
    DispersionService.gaussian_plume_concentration 50 50 5 "D" 60 0 < 1 / 20000 := by
  have h50 : (50 : ℝ) ^ (0.894 : ℝ) ≤ 50 := rpow_894_le_self (by norm_num)
  have hle := gauss_D_le 50 50 5 60 3 (by norm_num) (by norm_num) (by norm_num)
    (by norm_num) (by linarith) (by norm_num)
  rw [show max (5 : ℝ) 0.5 = 5 by norm_num,
    show -(0.5 : ℝ) * ((60 : ℝ) / 3) ^ 2 = -200 by norm_num] at hle
  have hexp : Real.exp (-200 : ℝ) ≤ 1 / 2 ^ 200 := by
    rw [Real.exp_neg, one_div]
    apply inv_le_inv_of_le (by positivity)
    calc (2 : ℝ) ^ (200 : ℕ) ≤ Real.exp 1 ^ (200 : ℕ) := by
          apply pow_le_pow_left (by norm_num)
          linarith [Real.exp_one_gt_d9]
      _ = Real.exp 200 := by
          rw [← Real.exp_nat_mul]
          norm_num
  apply lt_of_le_of_lt hle
  rw [div_mul_eq_mul_div, div_lt_iff (by positivity)]
  nlinarith [Real.exp_pos (-200 : ℝ), Real.pi_gt_d6]

/-- The class-D plume of a 50 kg/s fire release at 500 m downwind from an
effective height of 60 m exceeds 1 mg/m³. -/
theorem gauss_fire_at_500_ge_1 :
    1 ≤ DispersionService.gaussian_plume_concentration 50 500 5 "D" 60 0 := by
  obtain ⟨ha1, ha2⟩ := rpow_500_894_bounds
  rw [gauss_D_eval 50 500 5 60 (by norm_num) (by norm_num)]
  have hsy : max (0.08 * (500 : ℝ) ^ (0.894 : ℝ)) 1.0 =
      0.08 * (500 : ℝ) ^ (0.894 : ℝ) := max_eq_left (by nlinarith)
  have hsz : max (0.06 * (500 : ℝ) ^ (0.894 : ℝ)) 1.0 =
      0.06 * (500 : ℝ) ^ (0.894 : ℝ) := max_eq_left (by nlinarith)
  rw [hsy, hsz, show max (5 : ℝ) 0.5 = 5 by norm_num]
  refine le_trans ?_ (le_max_right 0 _)
  have hapos : (0 : ℝ) < 0.06 * (500 : ℝ) ^ (0.894 : ℝ) := by nlinarith
  have hexp_lb : Real.exp (-8 : ℝ) ≤
      Real.exp (-(0.5) * ((60 : ℝ) / (0.06 * (500 : ℝ) ^ (0.894 : ℝ))) ^ 2) := by
    apply Real.exp_le_exp.mpr
    have h1 : (60 : ℝ) / (0.06 * (500 : ℝ) ^ (0.894 : ℝ)) ≤ 4 := by
      rw [div_le_iff₀ hapos]
      nlinarith
    have h2 : (0 : ℝ) ≤ (60 : ℝ) / (0.06 * (500 : ℝ) ^ (0.894 : ℝ)) := by positivity
    nlinarith
  have hexp8 : (1 : ℝ) / 2996 ≤ Real.exp (-8 : ℝ) := by
    rw [Real.exp_neg, one_div]
    apply inv_anti₀ (Real.exp_pos 8)
    calc Real.exp 8 = Real.exp 1 ^ (8 : ℕ) := by
          rw [← Real.exp_nat_mul]
          norm_num
      _ ≤ 2.7182818286 ^ (8 : ℕ) := by
          apply pow_le_pow_left₀ (le_of_lt (Real.exp_pos 1))
          linarith [Real.exp_one_lt_d9]
      _ ≤ 2996 := by norm_num
  have hE : (1 : ℝ) / 2996 ≤
      Real.exp (-(0.5) * ((60 : ℝ) / (0.06 * (500 : ℝ) ^ (0.894 : ℝ))) ^ 2) :=
    le_trans hexp8 hexp_lb
  rw [div_mul_eq_mul_div, le_div_iff₀ (by positivity)]
  nlinarith [Real.pi_lt_d6, Real.pi_gt_d6, hE,
    mul_nonneg (by linarith : (0 : ℝ) ≤ 300 - (500 : ℝ) ^ (0.894 : ℝ))
      (by linarith : (0 : ℝ) ≤ (500 : ℝ) ^ (0.894 : ℝ) - 250),
    Real.exp_pos (-(0.5) * ((60 : ℝ) / (0.06 * (500 : ℝ) ^ (0.894 : ℝ))) ^ 2)]

/-- For the fire scenario of magnitude 100 (emission rate 50 kg/s, wind 5 m/s,
class D, effective height 60 m) the maximum-distance search aborts at its very
first candidate (100 m), where the elevated plume has not yet touched ground,
and returns the held floor value of 0.5 km. -/
theorem max_distance_fire_100 :
    DispersionService.calculate_max_distance 50 5 "D" 60 1.0 = 0.5 := by
  obtain ⟨t, ht⟩ : ∃ t, DispersionService.logspace_distances 30 = (100 : ℝ) :: t := by
    unfold DispersionService.logspace_distances
    rw [show (100 : ℕ) = 99 + 1 from rfl, List.range_succ_eq_map, List.map_cons]
    refine ⟨List.map (fun (k : ℕ) => (10 : ℝ) ^ ((2 : ℝ) +
      (k : ℝ) * (Real.logb 10 (30 * 1000) - 2) / 99)) (List.map Nat.succ (List.range 99)), ?_⟩
    congr 1
    push_cast
    rw [show (2 : ℝ) + 0 * (Real.logb 10 (30 * 1000) - 2) / 99 = 2 by ring]
    rw [show (2 : ℝ) = ((2 : ℕ) : ℝ) by norm_num, Real.rpow_natCast]
    norm_num
  simp only [DispersionService.calculate_max_distance]
  rw [if_neg (by norm_num : ¬(100 : ℝ) < 50), if_neg (by norm_num : ¬(50 : ℝ) < 50),
    if_pos (by norm_num : (10 : ℝ) < 50)]
  norm_num
  rw [ht]
  simp only [DispersionService.max_distance_scan]
  rw [if_neg (not_le.mpr gauss_fire_at_100_lt_2), if_pos (by norm_num : (0 : ℝ) < 1 / 2)]

/-- With a maximum distance of 0.5 km only one fixed sample distance qualifies,
so the table falls back to the five fractions of the maximum distance. -/
theorem relevant_distances_half :
    DispersionService.relevant_distances 0.5 = [0.05, 0.15, 0.25, 0.35, 0.5] := by
  simp only [DispersionService.relevant_distances]
  have hfil : ([0.5, 1.0, 2.0, 5.0, 10.0, 15.0, 20.0] : List ℝ).filter
      (fun d => d ≤ (0.5 : ℝ)) = [0.5] := by
    simp only [List.filter_cons, List.filter_nil, decide_eq_true_eq]
    rw [if_pos (by norm_num : (0.5 : ℝ) ≤ 0.5), if_neg (by norm_num : ¬(1.0 : ℝ) ≤ 0.5),
      if_neg (by norm_num : ¬(2.0 : ℝ) ≤ 0.5), if_neg (by norm_num : ¬(5.0 : ℝ) ≤ 0.5),
      if_neg (by norm_num : ¬(10.0 : ℝ) ≤ 0.5), if_neg (by norm_num : ¬(15.0 : ℝ) ≤ 0.5),
      if_neg (by norm_num : ¬(20.0 : ℝ) ≤ 0.5)]
  rw [hfil]
  norm_num

/-- The concentration table of the magnitude-100 fire scenario, evaluated at
the five fallback distances. -/
theorem concentration_table_fire_100 :
    DispersionService.concentration_table 50 5 "D" 60 0.5 =
      [(round2 0.05, round4 (DispersionService.gaussian_plume_concentration 50 50 5 "D" 60 0)),
       (round2 0.15, round4 (DispersionService.gaussian_plume_concentration 50 150 5 "D" 60 0)),
       (round2 0.25, round4 (DispersionService.gaussian_plume_concentration 50 250 5 "D" 60 0)),
       (round2 0.35, round4 (DispersionService.gaussian_plume_concentration 50 350 5 "D" 60 0)),
       (round2 0.5, round4 (DispersionService.gaussian_plume_concentration 50 500 5 "D" 60 0))] := by
  unfold DispersionService.concentration_table
  rw [relevant_distances_half]
  simp only [List.map_cons, List.map_nil]
  norm_num

/-- C3 counterexample: the concentration table of a fire of magnitude 100 (at
the default wind of 5 m/s, class D, release height 10 m) is not non-increasing:
its first entry (at 0.05 km) rounds to 0 while its last entry (at 0.5 km)
exceeds 1 mg/m³, so concentration increases with distance in the table. -/
theorem dispersion_table_not_nonincreasing :
    ¬ (DispersionService.simulate_dispersion "fire" 100 5 0 "D"
        10).concentrations.Pairwise (fun a b => b.2 ≤ a.2) := by
  have hc : (DispersionService.simulate_dispersion "fire" 100 5 0 "D"
      10).concentrations =
      DispersionService.concentration_table (100 * 0.5) (max 5 0.5) "D" (10 + 50)
        (DispersionService.calculate_max_distance (100 * 0.5) (max 5 0.5) "D"
          (10 + 50) 1.0) := rfl
  rw [hc, show (100 : ℝ) * 0.5 = 50 by norm_num, show max (5 : ℝ) 0.5 = 5 by norm_num,
    show (10 : ℝ) + 50 = 60 by norm_num, max_distance_fire_100,
    concentration_table_fire_100]
  intro hp
  rw [List.pairwise_cons] at hp
  have h04 := hp.1
    (round2 0.5, round4 (DispersionService.gaussian_plume_concentration 50 500 5 "D" 60 0))
    (by simp)
  simp only [] at h04
  have h50 : round4 (DispersionService.gaussian_plume_concentration 50 50 5 "D" 60 0) = 0 := by
    unfold round4
    have h1 : round (DispersionService.gaussian_plume_concentration 50 50 5 "D" 60 0 * 10000)
        = 0 := by
      rw [round_eq_zero_iff]
      constructor
      · have := gaussian_plume_nonneg 50 50 5 "D" 60 0 (by norm_num)
        nlinarith
      · have := gauss_fire_at_50_lt_round4
        show DispersionService.gaussian_plume_concentration 50 50 5 "D" 60 0 * 10000 < 1 / 2
        nlinarith
    rw [h1]
    norm_num
  have h500 : 0 < round4 (DispersionService.gaussian_plume_concentration 50 500 5 "D" 60 0) := by
    unfold round4
    have h2 := sub_half_lt_round
      (DispersionService.gaussian_plume_concentration 50 500 5 "D" 60 0 * 10000)
    have h3 := gauss_fire_at_500_ge_1
    have h4 : (0 : ℝ) <
        (round (DispersionService.gaussian_plume_concentration 50 500 5 "D" 60 0 * 10000) : ℝ) := by
      nlinarith
    positivity
  rw [h50] at h04
  linarith

/-- The concentration table lists strictly increasing distances whenever the
maximum distance is at least the 0.1 km search floor. -/
theorem concentration_table_pairwise (rate u : ℝ) (sc : String) (Heff M : ℝ)
    (hM : 0.1 ≤ M) :
    (DispersionService.concentration_table rate u sc Heff M).Pairwise
      (fun a b => a.1 < b.1) := by
  unfold DispersionService.concentration_table
  rw [List.pairwise_map]
  have hgap : (DispersionService.relevant_distances M).Pairwise
      (fun a b => a + 1 / 100 < b) := by
    simp only [DispersionService.relevant_distances]
    split_ifs with hlen
    · simp only [List.pairwise_cons, List.mem_cons, List.not_mem_nil, or_false,
        List.mem_singleton, forall_eq_or_imp, forall_eq]
      repeat' apply And.intro
      all_goals first
      | exact List.Pairwise.nil
      | (intro x hx; exact hx.elim)
      | linarith
    · apply List.Pairwise.filter
      simp only [List.pairwise_cons, List.mem_cons, List.not_mem_nil, or_false,
        List.mem_singleton, forall_eq_or_imp, forall_eq]
      repeat' apply And.intro
      all_goals first
      | exact List.Pairwise.nil
      | (intro x hx; exact hx.elim)
      | norm_num
  exact hgap.imp fun h => round2_lt_round2 h

/-- Every concentration in the table is nonnegative: table distances are
positive, and at positive distance the plume value is clamped at 0. -/
theorem concentration_table_nonneg (rate u : ℝ) (sc : String) (Heff M : ℝ)
    (hM : 0.1 ≤ M) :
    ∀ e ∈ DispersionService.concentration_table rate u sc Heff M, 0 ≤ e.2 := by
  intro e he
  unfold DispersionService.concentration_table at he
  simp only [List.mem_map] at he
  obtain ⟨d, hd, rfl⟩ := he
  have hdpos : 0 < d := by
    simp only [DispersionService.relevant_distances] at hd
    split_ifs at hd with hlen
    · simp only [List.mem_cons, List.not_mem_nil, or_false, List.mem_singleton] at hd
      rcases hd with rfl | rfl | rfl | rfl | rfl <;> linarith
    · have hd2 := List.mem_of_mem_filter hd
      simp only [List.mem_cons, List.not_mem_nil, or_false, List.mem_singleton] at hd2
      rcases hd2 with rfl | rfl | rfl | rfl | rfl | rfl | rfl <;> norm_num
  exact round4_nonneg (gaussian_plume_nonneg rate (d * 1000) u sc Heff 0 (by linarith))

/-- C3 amended: for every magnitude ≥ 0 and calamity type in {fire, explosion}
(and any wind, stability class and release height), the concentration table is
sampled at strictly increasing distances and all its concentrations are ≥ 0;
the concentrations themselves are not non-increasing in general. -/
theorem dispersion_table_sorted_nonneg (ct : String) (m u wd : ℝ) (sc : String)
    (h : ℝ) (hm : 0 ≤ m) (hct : ct = "fire" ∨ ct = "explosion") :
    (DispersionService.simulate_dispersion ct m u wd sc h).concentrations.Pairwise
      (fun a b => a.1 < b.1) ∧
    ∀ e ∈ (DispersionService.simulate_dispersion ct m u wd sc h).concentrations,
      0 ≤ e.2 := by
  rcases hct with rfl | rfl
  · have hc : (DispersionService.simulate_dispersion "fire" m u wd sc h).concentrations =
        DispersionService.concentration_table (m * 0.5) (max u 0.5) sc (h + 50)
          (DispersionService.calculate_max_distance (m * 0.5) (max u 0.5) sc
            (h + 50) 1.0) := rfl
    rw [hc]
    exact ⟨concentration_table_pairwise _ _ _ _ _ (calculate_max_distance_ge _ _ _ _ _),
      concentration_table_nonneg _ _ _ _ _ (calculate_max_distance_ge _ _ _ _ _)⟩
  · have hc : (DispersionService.simulate_dispersion "explosion" m u wd sc
        h).concentrations =
        DispersionService.concentration_table (m * 0.1) (max u 0.5) sc (h + 100)
          (max (DispersionService.calculate_blast_radius m)
            (DispersionService.calculate_max_distance (m * 0.1) (max u 0.5) sc
              (h + 100) 10.0)) := rfl
    rw [hc]
    have hM : (0.1 : ℝ) ≤ max (DispersionService.calculate_blast_radius m)
        (DispersionService.calculate_max_distance (m * 0.1) (max u 0.5) sc
          (h + 100) 10.0) :=
      le_trans (le_max_left _ _) (le_max_left _ _)
    exact ⟨concentration_table_pairwise _ _ _ _ _ hM,
      concentration_table_nonneg _ _ _ _ _ hM⟩

/-- C3 witness: the sorted-and-nonnegative table statement instantiated at the
fire scenario of magnitude 100 with wind 5 m/s, class D and height 10 m. -/
theorem dispersion_table_sorted_nonneg_witness :
    (0 : ℝ) ≤ 100 ∧ ("fire" = "fire" ∨ "fire" = "explosion") ∧
    ((DispersionService.simulate_dispersion "fire" 100 5 0 "D"
        10).concentrations.Pairwise (fun a b => a.1 < b.1) ∧
      ∀ e ∈ (DispersionService.simulate_dispersion "fire" 100 5 0 "D"
        10).concentrations, 0 ≤ e.2) :=
  ⟨by norm_num, Or.inl rfl,
    dispersion_table_sorted_nonneg "fire" 100 5 0 "D" 10 (by norm_num) (Or.inl rfl)⟩
